import Mathlib

/-
Verification development for the openwebui-installer repository.

The installer source (src/openwebui_installer/installer.py) contains
unresolved git merge-conflict markers, so several methods exist in more
than one variant.  Each definition below embeds one specific variant and
its doc comment records the source line range it was translated from.

The embedding is a shallow state-passing semantics: a `World` records the
parts of the machine the installer touches (config file, launch script,
the single named container and volume, the container engine, the Ollama
service, environment variables and the secrets mount), operations return
a trace of mutating effects together with either a final value and world
or a raised Python exception and the world at the moment of the raise.
-/

set_option autoImplicit false

/-- Python exception values that flow through the installer, flattened into
one inductive.  `installer` and `sysReq` correspond to `InstallerError` and
its subclass `SystemRequirementsError`; the remaining constructors are the
lower-level library exceptions the code catches or lets escape. -/
inductive Exc where
  | installer (msg : String)
  | sysReq (msg : String)
  | notFound (msg : String)
  | apiError (msg : String)
  | calledProcess (msg : String)
  | timeoutExpired (msg : String)
  | ioError (msg : String)
  | jsonError (msg : String)
  deriving Repr, DecidableEq

/-- Message payload of an exception (Python `str(e)`). -/
def Exc.message : Exc → String
  | .installer m => m
  | .sysReq m => m
  | .notFound m => m
  | .apiError m => m
  | .calledProcess m => m
  | .timeoutExpired m => m
  | .ioError m => m
  | .jsonError m => m

/-- `isinstance(e, InstallerError)`: true for `InstallerError` and its
subclass `SystemRequirementsError`. -/
def Exc.isInstallerError : Exc → Bool
  | .installer _ => true
  | .sysReq _ => true
  | _ => false

/-- `isinstance(e, docker.errors.NotFound)`. -/
def Exc.isNotFound : Exc → Bool
  | .notFound _ => true
  | _ => false

/-- `isinstance(e, docker.errors.APIError)`; in the docker SDK `NotFound`
is a subclass of `APIError`, so it is included. -/
def Exc.isAPIError : Exc → Bool
  | .notFound _ => true
  | .apiError _ => true
  | _ => false

/-- `isinstance(e, subprocess.TimeoutExpired)`. -/
def Exc.isTimeoutExpired : Exc → Bool
  | .timeoutExpired _ => true
  | _ => false

/-- `isinstance(e, subprocess.CalledProcessError)`. -/
def Exc.isCalledProcess : Exc → Bool
  | .calledProcess _ => true
  | _ => false

/-- The JSON object `_write_config` persists and `get_status`/`start`/
`update` read back: keys `version`, `model`, `port`, `image`.  A key that
is absent from the on-disk object is `none` (`dict.get` then yields its
default). -/
structure ConfigJson where
  version : Option String
  model : Option String
  port : Option Nat
  image : Option String
  deriving Repr, DecidableEq

/-- Contents of `~/.openwebui/config.json` when the file exists: either a
parseable JSON object or a file whose read/parse raises (corrupt). -/
inductive ConfigData where
  | valid (c : ConfigJson)
  | corrupt
  deriving Repr, DecidableEq

/-- The single named container (`"open-webui"`): its engine-reported
status string and the image it was created from. -/
structure Container where
  status : String
  image : String
  deriving Repr, DecidableEq

/-- Outcome of `requests.get("http://localhost:11434/api/tags", timeout=10)`. -/
inductive OllamaResp where
  | ok200
  | non200
  | timeout
  | connError
  deriving Repr, DecidableEq

/-- Outcome of `subprocess.run(["ollama", "pull", model], check=True, timeout=300)`. -/
inductive PullOutcome where
  | ok
  | timeout
  | fail
  deriving Repr, DecidableEq

/-- Mutating side effects the installer can perform, recorded as a trace. -/
inductive Event where
  | pullImage (img : String)
  | pullModel (model : String)
  | writeLaunchScript (port : Nat) (img : String)
  | writeConfig (c : ConfigJson)
  | containerStop
  | containerRemove
  | containerStart
  | containerRestart
  | containerRun (img : String) (port : Nat) (env : List (String × String))
  | removeVolume
  | removeConfigDir
  | writePlist
  | launchctlLoad
  deriving Repr, DecidableEq

/-- State of everything the installer reads or writes.  `engineOk` models
reachability of the container engine daemon: when false, every engine API
call raises `docker.errors.APIError`.  `logsOk` models the log-retrieval
call specifically.  `env` and `secretFiles` are the process environment
and the `/run/secrets` mount. -/
structure World where
  configFile : Option ConfigData
  configDirExists : Bool
  launchScript : Bool
  plistWritten : Bool
  container : Option Container
  volume : Bool
  engineOk : Bool
  logsOk : Bool
  logContent : String
  system : String
  pythonOk : Bool
  runtime : String
  podmanAvailable : Bool
  ollama : OllamaResp
  ollamaPull : PullOutcome
  launchctlOk : Bool
  env : String → Option String
  secretFiles : String → Option String

/-- Result of running an operation from a world: the trace of mutating
effects, and either a value with the final world or a raised exception
with the world at the moment of the raise. -/
abbrev Res (α : Type) := List Event × Except (Exc × World) (α × World)

/-- Sequencing: run `r`, and if it returned normally feed its value and
world to `f`; traces concatenate, exceptions propagate. -/
def Res.andThen {α β : Type} (r : Res α) (f : α → World → Res β) : Res β :=
  match r with
  | (tr, .error ew) => (tr, .error ew)
  | (tr, .ok (a, w)) =>
    let s := f a w
    (tr ++ s.1, s.2)

/-- A Python `except E as e: raise E2(...)` handler: exceptions satisfying
`p` are replaced by `f e`, others propagate. -/
def catchWith {α : Type} (r : Res α) (p : Exc → Bool) (f : Exc → Exc) : Res α :=
  match r with
  | (tr, .error (e, w)) =>
    if p e then (tr, .error (f e, w)) else (tr, .error (e, w))
  | ok => ok

/-- A Python `except E: pass` (or `return`) handler for a unit-valued
block: exceptions satisfying `p` are swallowed, others propagate. -/
def catchPass (r : Res Unit) (p : Exc → Bool) : Res Unit :=
  match r with
  | (tr, .error (e, w)) =>
    if p e then (tr, .ok ((), w)) else (tr, .error (e, w))
  | ok => ok

/-- True when the operation returned normally. -/
def Res.isOk {α : Type} (r : Res α) : Bool :=
  match r.2 with
  | .ok _ => true
  | .error _ => false

/-- True when the operation raised and the raised exception is an
`InstallerError` (or its subclass). -/
def Res.errInstaller {α : Type} (r : Res α) : Bool :=
  match r.2 with
  | .error (e, _) => e.isInstallerError
  | .ok _ => false

/-- Every exception the operation can raise is an `InstallerError`. -/
def Res.raisesOnlyInstaller {α : Type} (r : Res α) : Prop :=
  ∀ e w2, r.2 = .error (e, w2) → e.isInstallerError = true

/-- Python truthiness of an optional string: `None` and `""` are falsy. -/
def pyTruthy : Option String → Bool
  | none => false
  | some s => !(s = "")

/-- Python `str.strip()`: drop whitespace from both ends (modelled
character-wise so that it computes by kernel reduction). -/
def pyStrip (s : String) : String :=
  ⟨((s.toList.dropWhile Char.isWhitespace).reverse.dropWhile Char.isWhitespace).reverse⟩

namespace Installer

/-- Default image, `self.webui_image` (installer.py line 85). -/
def webui_image : String := "ghcr.io/open-webui/open-webui:main"

/-- `SECRET_ENV_VARS` (installer.py lines 29-34). -/
def SECRET_ENV_VARS : List String :=
  ["OPENAI_API_KEY", "ANTHROPIC_API_KEY", "HUGGINGFACE_TOKEN", "WEBUI_SECRET_KEY"]

/-- `_load_secret` (installer.py lines 117-129): the environment variable
when set and truthy, else the stripped contents of `/run/secrets/<name>`
when that file exists, else `None`.  In this filesystem model an existing
file always reads successfully, so the source's `except Exception:
return None` guard around the read has no reachable counterpart. -/
def load_secret (env : String → Option String) (files : String → Option String)
    (name : String) : Option String :=
  match env name with
  | some v => if v = "" then load_secret_file files name else some v
  | none => load_secret_file files name
where
  /-- fallback to the Docker secrets mount -/
  load_secret_file (files : String → Option String) (name : String) : Option String :=
    match files name with
    | some content => some (pyStrip content)
    | none => none

/-- The status dictionary initialized at the top of `get_status`
(installer.py lines 557-564). -/
structure StatusDict where
  installed : Bool
  version : Option String
  port : Option Nat
  model : Option String
  image : Option String
  running : Bool
  deriving Repr, DecidableEq

/-- Initial value of the `get_status` dictionary: everything false/None. -/
def defaultStatus : StatusDict :=
  { installed := false, version := none, port := none, model := none,
    image := none, running := false }

/-- `self.docker_client.containers.get("open-webui")`: `NotFound` when the
container is absent, `APIError` when the engine is unreachable. -/
def containersGet (w : World) : Res Container :=
  if w.engineOk then
    match w.container with
    | some c => ([], .ok (c, w))
    | none => ([], .error (.notFound "No such container: open-webui", w))
  else ([], .error (.apiError "cannot connect to the container engine", w))

/-- `container.stop()` on the named container. -/
def containerStop (w : World) : Res Unit :=
  ([.containerStop],
    .ok ((), { w with container := w.container.map (fun c => { c with status := "exited" }) }))

/-- `container.remove()` on the named container. -/
def containerRemove (w : World) : Res Unit :=
  ([.containerRemove], .ok ((), { w with container := none }))

/-- `container.start()` on the named container. -/
def containerStart (w : World) : Res Unit :=
  ([.containerStart],
    .ok ((), { w with container := w.container.map (fun c => { c with status := "running" }) }))

/-- `container.restart()` on the named container: restarts it in place. -/
def containerRestart (w : World) : Res Unit :=
  ([.containerRestart],
    .ok ((), { w with container := w.container.map (fun c => { c with status := "running" }) }))

/-- `self.docker_client.images.pull(img)`. -/
def imagesPull (img : String) (w : World) : Res Unit :=
  if w.engineOk then ([.pullImage img], .ok ((), w))
  else ([.pullImage img], .error (.apiError ("error pulling image " ++ img), w))

/-- `self.docker_client.containers.run(img, name="open-webui",
ports=..., volumes=..., environment=env, ...)`: creates and starts the
named container. -/
def containersRun (img : String) (port : Nat) (envVars : List (String × String))
    (w : World) : Res Unit :=
  if w.engineOk then
    ([.containerRun img port envVars], .ok ((), { w with container := some ⟨"running", img⟩ }))
  else ([.containerRun img port envVars], .error (.apiError "cannot connect to the container engine", w))

/-- `self.docker_client.volumes.get("open-webui")`. -/
def volumesGet (w : World) : Res Unit :=
  if w.engineOk then
    if w.volume then ([], .ok ((), w))
    else ([], .error (.notFound "no such volume: open-webui", w))
  else ([], .error (.apiError "cannot connect to the container engine", w))

/-- `volume.remove()`. -/
def volumeRemove (w : World) : Res Unit :=
  ([.removeVolume], .ok ((), { w with volume := false }))

/-- `container.logs(tail=...)` followed by `.decode()`. -/
def containerLogsFetch (w : World) : Res String :=
  if w.logsOk then ([], .ok (w.logContent, w))
  else ([], .error (.apiError "error fetching logs", w))

/-- `subprocess.run(["ollama", "pull", model], check=True, timeout=300)`
(the subprocess is invoked even when it ends up failing, so the trace
records the attempt in every outcome). -/
def ollamaPullSub (model : String) (w : World) : Res Unit :=
  match w.ollamaPull with
  | .ok => ([.pullModel model], .ok ((), w))
  | .timeout => ([.pullModel model], .error (.timeoutExpired ("ollama pull " ++ model), w))
  | .fail => ([.pullModel model], .error (.calledProcess ("ollama pull " ++ model), w))

/-- `get_status` (installer.py lines 553-610).  `_setup_logger` first
creates the log directory below the config directory.  If the config file
is missing, or reading/parsing it raises (`except Exception: return
status`, lines 599-600), the default dictionary is returned.  Otherwise
the dictionary is filled from the config (the HEAD variant leaves the
`image` key at `None`, lines 579-586) and the live container is looked
up; only `docker.errors.NotFound` is caught there (lines 602-607), so any
other engine error propagates out of `get_status`. -/
def get_status (w : World) : Res StatusDict :=
  let w1 := { w with configDirExists := true }
  match w.configFile with
  | none => ([], .ok (defaultStatus, w1))
  | some .corrupt => ([], .ok (defaultStatus, w1))
  | some (.valid c) =>
    let st : StatusDict :=
      { installed := true, version := c.version, port := c.port, model := c.model,
        image := none, running := false }
    if w1.engineOk then
      match w1.container with
      | some ct => ([], .ok ({ st with running := ct.status = "running" }, w1))
      | none => ([], .ok (st, w1))
    else ([], .error (.apiError "cannot connect to the container engine", w1))

/-- `_check_system_requirements`, HEAD variant (installer.py lines
152-215): OS must be macOS or Linux (lines 156-161), Python ≥ 3.9 (lines
172-174), the container runtime must answer `ping()` (lines 176-187, with
podman-aware messages), and Ollama must answer the tags endpoint.  Note
that the `SystemRequirementsError("Ollama is not running")` raised inside
the `try` block for a non-200 response is intercepted by the blanket
`except Exception` (lines 214-215) and re-raised with its message, so a
non-200 response surfaces as "Ollama is not installed or not running". -/
def check_system_requirements (w : World) : Res Unit :=
  if w.system ≠ "Darwin" ∧ w.system ≠ "Linux" then
    ([], .error (.sysReq "This installer only supports macOS and Linux", w))
  else if ¬ w.pythonOk then
    ([], .error (.sysReq "Python 3.9 or higher is required", w))
  else if ¬ w.engineOk then
    if w.runtime = "podman" then
      ([], .error (.sysReq "Podman is not running or not installed", w))
    else if w.podmanAvailable then
      ([], .error (.sysReq "Docker is not running or not installed. Podman detected; use --runtime podman", w))
    else
      ([], .error (.sysReq "Docker is not running or not installed", w))
  else
    match w.ollama with
    | .ok200 => ([], .ok ((), w))
    | .non200 => ([], .error (.sysReq "Ollama is not installed or not running", w))
    | .timeout => ([], .error (.sysReq "Timeout connecting to Ollama - check if it's running", w))
    | .connError => ([], .error (.sysReq "Ollama is not installed or not running", w))

/-- `image if image else self.webui_image` (installer.py line 355). -/
def effectiveImage (image : Option String) : String :=
  match image with
  | some s => if s = "" then webui_image else s
  | none => webui_image

/-- The fixed environment entry passed to every `containers.run` call. -/
def baseEnv : List (String × String) :=
  [("OLLAMA_API_BASE_URL", "http://host.docker.internal:11434/api")]

/-- The env dict built in `install` (installer.py lines 438-444): the
base URL plus each secret of `SECRET_ENV_VARS` whose loaded value is
truthy. -/
def buildEnvVars (w : World) : List (String × String) :=
  baseEnv ++ SECRET_ENV_VARS.filterMap (fun name =>
    match load_secret w.env w.secretFiles name with
    | some v => if v = "" then none else some (name, v)
    | none => none)

/-- The already-installed guard at the top of `install` (installer.py
lines 343-346): `if not force and self.get_status()["installed"]`.  With
`force` set, `get_status` is not even called (Python `and`
short-circuits). -/
def installCheckInstalled (force : Bool) (w : World) : Res Unit :=
  if force then ([], .ok ((), w))
  else
    Res.andThen (get_status w) (fun st w1 =>
      if st.installed then
        ([], .error (.installer "Open WebUI is already installed. Use --force to reinstall.", w1))
      else ([], .ok ((), w1)))

/-- The image pull of `install` (installer.py lines 358-364): `APIError`
is re-raised as `InstallerError`. -/
def pullWebuiImage (img : String) (w : World) : Res Unit :=
  catchWith (imagesPull img w) Exc.isAPIError
    (fun e => .installer ("Failed to pull Open WebUI Docker image: " ++ e.message))

/-- The model pull of `install` (installer.py lines 366-374):
`TimeoutExpired` and `CalledProcessError` are re-raised as
`InstallerError`. -/
def pullOllamaModel (model : String) (w : World) : Res Unit :=
  catchWith
    (catchWith (ollamaPullSub model w) Exc.isTimeoutExpired
      (fun _ => .installer ("Timeout while pulling Ollama model " ++ model)))
    Exc.isCalledProcess
    (fun e => .installer ("Failed to pull Ollama model " ++ model ++ ": " ++ e.message))

/-- The launch-script write of `install` (installer.py lines 376-410). -/
def writeLaunchScriptStep (port : Nat) (img : String) (w : World) : Res Unit :=
  ([.writeLaunchScript port img], .ok ((), { w with launchScript := true }))

/-- `_write_config` (installer.py lines 259-268, called at line 419):
writes `version "0.1.0"`, the model, the port and the image. -/
def write_config (model : String) (port : Nat) (img : String) (w : World) : Res Unit :=
  let c : ConfigJson := ⟨some "0.1.0", some model, some port, some img⟩
  ([.writeConfig c], .ok ((), { w with configFile := some (.valid c) }))

/-- The stop-and-remove-existing-container block shared by `install`
(lines 430-435) and `uninstall` (lines 505-511): `except
docker.errors.NotFound: pass`. -/
def stopRemoveExisting (w : World) : Res Unit :=
  catchPass
    (Res.andThen (containersGet w) (fun _ w1 =>
      Res.andThen (containerStop w1) (fun _ w2 => containerRemove w2)))
    Exc.isNotFound

/-- The container-start block of `install` (installer.py lines 422-484):
stop/remove any existing container, build the env dict, run the new
container; `APIError` anywhere in the block is re-raised as
`InstallerError`. -/
def startContainerStep (port : Nat) (img : String) (w : World) : Res Unit :=
  catchWith
    (Res.andThen (stopRemoveExisting w) (fun _ w1 =>
      containersRun img port (buildEnvVars w1) w1))
    Exc.isAPIError
    (fun e => .installer ("Failed to start Open WebUI container: " ++ e.message))

/-- Body of the outer `try` of `install` (installer.py lines 334-488,
HEAD variant): installed check, requirements check, ensure config dir,
pull image, pull model, write launch script, write config, start
container. -/
def installBody (model : String) (port : Nat) (force : Bool) (image : Option String)
    (w : World) : Res Unit :=
  Res.andThen (installCheckInstalled force w) (fun _ w1 =>
  Res.andThen (check_system_requirements w1) (fun _ w2 =>
    let w3 := { w2 with configDirExists := true }
    let img := effectiveImage image
    Res.andThen (pullWebuiImage img w3) (fun _ w4 =>
    Res.andThen (pullOllamaModel model w4) (fun _ w5 =>
    Res.andThen (writeLaunchScriptStep port img w5) (fun _ w6 =>
    Res.andThen (write_config model port img w6) (fun _ w7 =>
    startContainerStep port img w7))))))

/-- `install` (installer.py lines 301-494): the whole body is wrapped by
`except Exception as e: raise InstallerError("Installation failed: " +
str(e))` (lines 490-492). -/
def install (model : String) (port : Nat) (force : Bool) (image : Option String)
    (w : World) : Res Unit :=
  catchWith (installBody model port force image w) (fun _ => true)
    (fun e => .installer ("Installation failed: " ++ e.message))

/-- The config-directory removal of `uninstall` (installer.py lines
537-538): `shutil.rmtree(self.config_dir)` when it exists, deleting the
config file and launch script with it. -/
def removeConfigDirStep (w : World) : Res Unit :=
  if w.configDirExists then
    ([.removeConfigDir],
      .ok ((), { w with configDirExists := false, configFile := none, launchScript := false }))
  else ([], .ok ((), w))

/-- The volume removal of `uninstall` (installer.py lines 540-545):
`except docker.errors.NotFound: pass`. -/
def removeVolumeStep (w : World) : Res Unit :=
  catchPass (Res.andThen (volumesGet w) (fun _ w1 => volumeRemove w1)) Exc.isNotFound

/-- `uninstall` (installer.py lines 496-551): stop/remove the container
(tolerating absence), remove the config directory, remove the volume
(tolerating absence); any other exception is re-raised as
`InstallerError` (lines 547-549). -/
def uninstall (w : World) : Res Unit :=
  catchWith
    (Res.andThen (stopRemoveExisting w) (fun _ w1 =>
      Res.andThen (removeConfigDirStep w1) (fun _ w2 =>
      removeVolumeStep w2)))
    (fun _ => true)
    (fun e => .installer ("Uninstallation failed: " ++ e.message))

/-- `stop`, merged variant (installer.py lines 803-814): `NotFound` is
re-raised as `InstallerError("Open WebUI container is not running")`,
`APIError` as a wrapped `InstallerError`. -/
def stop (w : World) : Res Unit :=
  catchWith
    (catchWith (Res.andThen (containersGet w) (fun _ w1 => containerStop w1))
      Exc.isNotFound (fun _ => .installer "Open WebUI container is not running"))
    Exc.isAPIError
    (fun e => .installer ("Failed to stop Open WebUI container: " ++ e.message))

/-- `stop`, HEAD variant (installer.py lines 729-737): `except
docker.errors.NotFound: return` silently returns when the container is
absent; the enclosing `except Exception as e` handler body sits behind
the conflict marker at line 738 and is resolved here to the
`InstallerError` re-raise used by the sibling variants. -/
def stopHead (w : World) : Res Unit :=
  catchWith
    (catchPass (Res.andThen (containersGet w) (fun _ w1 => containerStop w1))
      Exc.isNotFound)
    (fun _ => true)
    (fun e => .installer ("Failed to stop Open WebUI container: " ++ e.message))

/-- `restart` (installer.py lines 816-824): `NotFound` is re-raised as
`InstallerError("Open WebUI container is not running")`, `APIError` as a
wrapped `InstallerError`.  The twin at lines 894-909 differs only in the
message text. -/
def restart (w : World) : Res Unit :=
  catchWith
    (catchWith (Res.andThen (containersGet w) (fun _ w1 => containerRestart w1))
      Exc.isNotFound (fun _ => .installer "Open WebUI container is not running"))
    Exc.isAPIError
    (fun e => .installer ("Failed to restart Open WebUI container: " ++ e.message))

/-- `logs` (installer.py lines 966-979 variant): only `NotFound` is
caught and re-raised as `InstallerError`; an `APIError` from the log
retrieval itself propagates unwrapped. -/
def logs (_tail : Nat) (w : World) : Res String :=
  catchWith (Res.andThen (containersGet w) (fun _ w1 => containerLogsFetch w1))
    Exc.isNotFound (fun _ => .installer "Open WebUI container not found")

/-- `start` (installer.py lines 771-801 variant): `get_status` first (its
engine errors propagate unwrapped), `InstallerError` when not installed,
then start the existing container, or on `NotFound` recreate it from the
stored config with `containers.run` (also unwrapped). -/
def start (w : World) : Res Unit :=
  Res.andThen (get_status w) (fun st w1 =>
    if st.installed then
      match containersGet w1 with
      | (tr, .ok (_, w2)) =>
        let r := containerStart w2
        (tr ++ r.1, r.2)
      | (tr, .error (e, w2)) =>
        if e.isNotFound then
          match w2.configFile with
          | some (.valid c) =>
            let r := containersRun (c.image.getD webui_image) (c.port.getD 3000) baseEnv w2
            (tr ++ r.1, r.2)
          | some .corrupt => (tr, .error (.jsonError "invalid config.json", w2))
          | none => (tr, .error (.ioError "config.json not found", w2))
        else (tr, .error (e, w2))
    else ([], .error (.installer "Open WebUI is not installed", w1)))

/-- The config rewrite inside `update` (installer.py lines 924-929 and
845-850): read `config.json`, set its `image` key, write it back. -/
def configSetImageStep (img : String) (w : World) : Res Unit :=
  match w.configFile with
  | some (.valid c) =>
    let c2 := { c with image := some img }
    ([.writeConfig c2], .ok ((), { w with configFile := some (.valid c2) }))
  | some .corrupt => ([], .error (.jsonError "invalid config.json", w))
  | none => ([], .error (.ioError "config.json not found", w))

/-- The `try` body of `update` (installer.py lines 919-931): pull
`image_to_use`, rewrite the config's image key when a new image was
passed and differs from the status value, then `self.restart()`.  Note
`image_to_use` falls back to `status.get("image", ...)`, and the HEAD
`get_status` always leaves that key at `None`, so with no argument the
pull target is `None`; docker-py rejects that with an `APIError` here. -/
def updateTryBody (image : Option String) (st : StatusDict) (w : World) : Res Unit :=
  let imageToUse := if pyTruthy image then image else st.image
  Res.andThen
    (match imageToUse with
     | some s => imagesPull s w
     | none => ([], .error (.apiError "invalid reference format: None", w)))
    (fun _ w1 =>
      Res.andThen
        (if pyTruthy image ∧ image ≠ st.image then
           configSetImageStep (image.getD "") w1
         else ([], .ok ((), w1)))
        (fun _ w2 => restart w2))

/-- `update` (installer.py lines 911-933 variant): `get_status` runs
before the `try` (engine errors there propagate unwrapped),
`InstallerError` when not installed, then the pull/rewrite/restart body
with only `APIError` re-raised as `InstallerError`.  This variant
restarts the existing container in place; it never stops, removes or
recreates it. -/
def update (image : Option String) (w : World) : Res Unit :=
  Res.andThen (get_status w) (fun st w1 =>
    if st.installed then
      catchWith (updateTryBody image st w1) Exc.isAPIError
        (fun e => .installer ("Failed to update Open WebUI Docker image: " ++ e.message))
    else ([], .error (.installer "Open WebUI is not installed.", w1)))

/-- Body of the `update` variant at installer.py lines 836-869: status
check, `new_image = image if image else self.webui_image`, pull, rewrite
the config's image key, stop and remove the existing container
(tolerating absence), then run a new container on the port stored in the
config (`config.get("port", 3000)`). -/
def updateRunBody (image : Option String) (w : World) : Res Unit :=
  Res.andThen (get_status w) (fun st w1 =>
    if st.installed then
      let newImage := effectiveImage image
      Res.andThen (imagesPull newImage w1) (fun _ w2 =>
        match w2.configFile with
        | some (.valid c) =>
          let c2 := { c with image := some newImage }
          Res.andThen
            (([.writeConfig c2], .ok ((), { w2 with configFile := some (.valid c2) })))
            (fun _ w3 =>
              Res.andThen (stopRemoveExisting w3) (fun _ w4 =>
                containersRun newImage (c2.port.getD 3000) baseEnv w4))
        | some .corrupt => ([], .error (.jsonError "invalid config.json", w2))
        | none => ([], .error (.ioError "config.json not found", w2)))
    else ([], .error (.installer "Open WebUI is not installed", w1)))

/-- `update`, stop-and-recreate variant (installer.py lines 836-873):
the body wrapped by `except docker.errors.APIError` re-raised as
`InstallerError` (lines 872-873). -/
def updateRun (image : Option String) (w : World) : Res Unit :=
  catchWith (updateRunBody image w) Exc.isAPIError
    (fun e => .installer ("Failed to start Open WebUI container: " ++ e.message))

/-- `enable_autostart` (installer.py lines 997-1066 variant): requires
macOS and an existing launch script (both checked with `InstallerError`),
writes the plist, then calls `subprocess.run(["launchctl", "load", "-w",
plist_path], check=True)` with no surrounding `try`, so a failing
`launchctl` escapes as an unwrapped `CalledProcessError`. -/
def enable_autostart (w : World) : Res Unit :=
  if w.system ≠ "Darwin" then
    ([], .error (.installer "Autostart is only supported on macOS", w))
  else if ¬ w.launchScript then
    ([], .error (.installer "Launch script not found. Please run 'openwebui-installer install' first.", w))
  else
    let w1 := { w with plistWritten := true }
    if w1.launchctlOk then
      ([.writePlist, .launchctlLoad], .ok ((), w1))
    else
      ([.writePlist, .launchctlLoad],
        .error (.calledProcess "launchctl load returned non-zero exit status", w1))

end Installer

namespace Downloader

/-- `Downloader.download_if_needed` (downloader.py lines 31-66), with the
SHA-256 digest abstracted as `hash` and the HTTP fetch as `resp` (an
error models any network failure, caught and re-raised as
`DownloadError`).  The state is the content at `dest` (`none` = file
absent).  Returns the final content at `dest` and either normal
completion or the raised `DownloadError` message. -/
def download_if_needed (hash : String → String) (resp : Except String String)
    (dest : Option String) (checksum : Option String) :
    Option String × Except String Unit :=
  match dest with
  | some existing =>
    match checksum with
    | some c =>
      if c = "" then (dest, .ok ())
      else if hash existing = c then (dest, .ok ())
      else fetchAndCheck hash resp dest checksum
    | none => (dest, .ok ())
  | none => fetchAndCheck hash resp dest checksum
where
  /-- the download-then-verify tail of `download_if_needed` (lines 52-66):
  fetch, write `dest`, then if the checksum is truthy and mismatches,
  delete `dest` and raise. -/
  fetchAndCheck (hash : String → String) (resp : Except String String)
      (dest : Option String) (checksum : Option String) :
      Option String × Except String Unit :=
    match resp with
    | .error msg => (dest, .error ("Failed to download: " ++ msg))
    | .ok content =>
      match checksum with
      | some c =>
        if c ≠ "" ∧ hash content ≠ c then
          (none, .error "Checksum mismatch after download")
        else (some content, .ok ())
      | none => (some content, .ok ())

end Downloader

/-- A healthy, freshly-wiped machine: nothing installed, engine and
Ollama reachable, macOS, recent Python, no secrets configured. -/
def wBase : World :=
  { configFile := none, configDirExists := false, launchScript := false,
    plistWritten := false, container := none, volume := false, engineOk := true,
    logsOk := true, logContent := "log line", system := "Darwin", pythonOk := true,
    runtime := "docker", podmanAvailable := false, ollama := .ok200,
    ollamaPull := .ok, launchctlOk := true,
    env := fun _ => none, secretFiles := fun _ => none }

/-- The config `install(model="m", port=3000, image="old")` would write. -/
def cfg0 : ConfigJson := ⟨some "0.1.0", some "m", some 3000, some "old"⟩

/-- A machine with Open WebUI installed and its container running. -/
def wInstalled : World :=
  { wBase with
    configFile := some (.valid cfg0), configDirExists := true,
    launchScript := true, container := some ⟨"running", "old"⟩, volume := true }

/-- Installed, but the container engine daemon is unreachable. -/
def wEngineDown : World := { wInstalled with engineOk := false }

/-- A config file exists but cannot be read or parsed. -/
def wCorrupt : World := { wBase with configFile := some .corrupt }

/-- Installed config, but the named container does not exist. -/
def wNoContainer : World := { wInstalled with container := none }

/-- Installed on macOS, but `launchctl load` exits non-zero. -/
def wLaunchctlFail : World := { wInstalled with launchctlOk := false }

/-- Installed with the container present, but log retrieval fails with an
engine `APIError`. -/
def wLogsFail : World := { wInstalled with logsOk := false }

/-- Inversion for sequencing: a normal result of `r.andThen f` factors
through a normal result of `r`. -/
theorem Res.andThen_ok {α β : Type} {r : Res α} {f : α → World → Res β} {b : β} {w2 : World}
    (h : (Res.andThen r f).2 = .ok (b, w2)) :
    ∃ a w1, r.2 = .ok (a, w1) ∧ (f a w1).2 = .ok (b, w2) := by
  rcases r with ⟨tr, r2⟩
  cases r2 with
  | error ew => simp [Res.andThen] at h
  | ok aw =>
    rcases aw with ⟨a, w1⟩
    exact ⟨a, w1, rfl, by simpa [Res.andThen] using h⟩

/-- Inversion for handlers: `catchWith` never turns an exception into a
normal result, so a normal result came from `r` unchanged. -/
theorem catchWith_ok {α : Type} {r : Res α} {p : Exc → Bool} {f : Exc → Exc}
    {a : α} {w2 : World} (h : (catchWith r p f).2 = .ok (a, w2)) :
    r.2 = .ok (a, w2) := by
  rcases r with ⟨tr, r2⟩
  cases r2 with
  | error ew =>
    rcases ew with ⟨e, w⟩
    by_cases hp : p e = true <;> simp [catchWith, hp] at h
  | ok aw => simpa [catchWith] using h

/-- A handler that replaces every exception by an `InstallerError` leaves
an operation that can only raise `InstallerError`. -/
theorem catchAll_installer {α : Type} (r : Res α) (f : Exc → String) :
    Res.raisesOnlyInstaller (catchWith r (fun _ => true) (fun e => .installer (f e))) := by
  intro e w2 h
  rcases r with ⟨tr, r2⟩
  cases r2 with
  | error ew =>
    rcases ew with ⟨e0, w0⟩
    simp [catchWith] at h
    simp [← h.1, Exc.isInstallerError]
  | ok aw => simp [catchWith] at h

/-- C1: with the config file present and parseable (`get_status` reports
installed), `install` without `force` raises `InstallerError` and its
effect trace is empty: no image pull, no model pull, no launch-script or
config write, and no container stop/remove/run happen before the
raise. -/
theorem install_already_installed_no_mutation (w : World) (c : ConfigJson)
    (m : String) (p : Nat) (img : Option String)
    (h : w.configFile = some (.valid c)) :
    (Installer.install m p false img w).1 = [] ∧
    Res.errInstaller (Installer.install m p false img w) = true := by
  cases hE : w.engineOk <;> cases hC : w.container <;>
    simp [Installer.install, Installer.installBody, Installer.installCheckInstalled,
      Installer.get_status, Res.andThen, catchWith, h, hE, hC,
      Res.errInstaller, Exc.isInstallerError, Installer.defaultStatus]

/-- Witness for C1 at a concrete installed world. -/
theorem install_already_installed_no_mutation_witness :
    wInstalled.configFile = some (.valid cfg0) ∧
    ((Installer.install "x" 8080 false none wInstalled).1 = [] ∧
      Res.errInstaller (Installer.install "x" 8080 false none wInstalled) = true) :=
  ⟨rfl, install_already_installed_no_mutation wInstalled cfg0 "x" 8080 none rfl⟩

/-- C2 counterexample: with a readable config file and a container lookup
that fails with an engine error other than `NotFound`, `get_status` does
not return `running=false`: it propagates the (non-`InstallerError`)
exception. -/
theorem get_status_engine_error_escapes :
    Res.isOk (Installer.get_status wEngineDown) = false ∧
    Res.errInstaller (Installer.get_status wEngineDown) = false :=
  ⟨rfl, rfl⟩

/-- C2 (amended): with a readable config file, `get_status` reports
`running=false` when the container lookup fails with `NotFound` (the
container is absent); but when the lookup fails with any other engine
error the exception propagates out of `get_status` unwrapped. -/
theorem get_status_running_policy (w : World) (c : ConfigJson)
    (h : w.configFile = some (.valid c)) :
    (w.engineOk = true → w.container = none →
      Installer.get_status w =
        ([], .ok ({ installed := true, version := c.version, port := c.port,
                    model := c.model, image := none, running := false },
                  { w with configDirExists := true }))) ∧
    (w.engineOk = false →
      Installer.get_status w =
        ([], .error (.apiError "cannot connect to the container engine",
                     { w with configDirExists := true }))) := by
  constructor
  · intro hE hC
    simp [Installer.get_status, h, hE, hC]
  · intro hE
    simp [Installer.get_status, h, hE]

/-- Witness for C2's amended theorem at a concrete installed world with
no container. -/
theorem get_status_running_policy_witness :
    wNoContainer.configFile = some (.valid cfg0) ∧
    ((wNoContainer.engineOk = true → wNoContainer.container = none →
      Installer.get_status wNoContainer =
        ([], .ok ({ installed := true, version := cfg0.version, port := cfg0.port,
                    model := cfg0.model, image := none, running := false },
                  { wNoContainer with configDirExists := true }))) ∧
    (wNoContainer.engineOk = false →
      Installer.get_status wNoContainer =
        ([], .error (.apiError "cannot connect to the container engine",
                     { wNoContainer with configDirExists := true })))) :=
  ⟨rfl, get_status_running_policy wNoContainer cfg0 rfl⟩

/-- C4 counterexample: the HEAD `stop` variant (installer.py lines
729-737) silently returns when the container does not exist, instead of
raising `InstallerError`. -/
theorem stopHead_no_container_silently_returns :
    Installer.stopHead wNoContainer = ([], .ok ((), wNoContainer)) :=
  rfl

/-- C4 (amended): when the named container does not exist, the merged
`stop` variant (lines 803-814) and `restart` (lines 816-824) raise
`InstallerError`; the HEAD `stop` variant (lines 729-737) instead
silently returns. -/
theorem stop_restart_no_container (w : World) (h : w.container = none) :
    Res.errInstaller (Installer.stop w) = true ∧
    Res.errInstaller (Installer.restart w) = true ∧
    (w.engineOk = true → Installer.stopHead w = ([], .ok ((), w))) := by
  cases hE : w.engineOk <;>
    simp [Installer.stop, Installer.stopHead, Installer.restart, Installer.containersGet,
      Installer.containerStop, Installer.containerRestart, Res.andThen, catchWith, catchPass,
      h, hE, Res.errInstaller, Exc.isInstallerError, Exc.isNotFound, Exc.isAPIError]

/-- Witness for C4's amended theorem. -/
theorem stop_restart_no_container_witness :
    wNoContainer.container = none ∧
    (Res.errInstaller (Installer.stop wNoContainer) = true ∧
     Res.errInstaller (Installer.restart wNoContainer) = true ∧
     (wNoContainer.engineOk = true →
       Installer.stopHead wNoContainer = ([], .ok ((), wNoContainer)))) :=
  ⟨rfl, stop_restart_no_container wNoContainer rfl⟩

/-- C5: `uninstall` is idempotent: on a state with nothing installed (no
container, no config directory, no volume, with the engine reachable so
that absence can be reported) it returns without raising and without side
effects, and whenever an `uninstall` returns normally, running it again
from the resulting state also returns normally and changes nothing. -/
theorem uninstall_idempotent (w : World) :
    (w.container = none → w.configDirExists = false → w.volume = false →
      w.engineOk = true → Installer.uninstall w = ([], .ok ((), w))) ∧
    (∀ w1, (Installer.uninstall w).2 = .ok ((), w1) →
      Installer.uninstall w1 = ([], .ok ((), w1))) := by
  constructor
  · intro hC hD hV hE
    simp [Installer.uninstall, Installer.stopRemoveExisting, Installer.containersGet,
      Installer.removeConfigDirStep, Installer.removeVolumeStep, Installer.volumesGet, Installer.volumeRemove,
      Res.andThen, catchWith, catchPass, hC, hD, hV, hE, Exc.isNotFound]
  · intro w1 h
    cases hE : w.engineOk
    · exfalso
      cases hC : w.container <;>
        simp [Installer.uninstall, Installer.stopRemoveExisting, Installer.containersGet,
          Installer.containerStop, Installer.containerRemove, Installer.removeConfigDirStep,
          Installer.removeVolumeStep, Installer.volumesGet, Installer.volumeRemove,
          Res.andThen, catchWith, catchPass, hE, hC, Exc.isNotFound] at h
    · cases hC : w.container <;> cases hD : w.configDirExists <;> cases hV : w.volume <;>
        simp [Installer.uninstall, Installer.stopRemoveExisting, Installer.containersGet,
          Installer.containerStop, Installer.containerRemove, Installer.removeConfigDirStep,
          Installer.removeVolumeStep, Installer.volumesGet, Installer.volumeRemove,
          Res.andThen, catchWith, catchPass, hE, hC, hD, hV, Exc.isNotFound] at h <;>
        subst h <;>
        simp [Installer.uninstall, Installer.stopRemoveExisting, Installer.containersGet,
          Installer.containerStop, Installer.containerRemove, Installer.removeConfigDirStep,
          Installer.removeVolumeStep, Installer.volumesGet, Installer.volumeRemove,
          Res.andThen, catchWith, catchPass, hE, hC, hD, hV, Exc.isNotFound]

/-- The fully-uninstalled world a successful `uninstall` from
`wInstalled` produces. -/
def wUninstalled : World :=
  { wInstalled with
    container := none, configDirExists := false, configFile := none,
    launchScript := false, volume := false }

/-- Witness for C5: the nothing-installed case at `wBase`, and a second
`uninstall` after a successful one from `wInstalled`. -/
theorem uninstall_idempotent_witness :
    (wBase.container = none ∧ wBase.configDirExists = false ∧ wBase.volume = false ∧
      wBase.engineOk = true ∧ Installer.uninstall wBase = ([], .ok ((), wBase))) ∧
    ((Installer.uninstall wInstalled).2 = .ok ((), wUninstalled) ∧
      Installer.uninstall wUninstalled = ([], .ok ((), wUninstalled))) :=
  ⟨⟨rfl, rfl, rfl, rfl, (uninstall_idempotent wBase).1 rfl rfl rfl rfl⟩,
   ⟨rfl, (uninstall_idempotent wInstalled).2 wUninstalled rfl⟩⟩

/-- The merged `stop` variant only ever raises `InstallerError`: both
`NotFound` and `APIError` are re-wrapped. -/
theorem stop_raises_wrapped (w : World) : Res.raisesOnlyInstaller (Installer.stop w) := by
  intro e w2 h
  cases hE : w.engineOk <;> cases hC : w.container <;>
    simp [Installer.stop, Installer.containersGet, Installer.containerStop, Res.andThen,
      catchWith, hE, hC, Exc.isNotFound, Exc.isAPIError] at h <;>
    (obtain ⟨he, -⟩ := h; subst he; simp [Exc.isInstallerError])

/-- `restart` only ever raises `InstallerError`. -/
theorem restart_raises_wrapped (w : World) : Res.raisesOnlyInstaller (Installer.restart w) := by
  intro e w2 h
  cases hE : w.engineOk <;> cases hC : w.container <;>
    simp [Installer.restart, Installer.containersGet, Installer.containerRestart, Res.andThen,
      catchWith, hE, hC, Exc.isNotFound, Exc.isAPIError] at h <;>
    (obtain ⟨he, -⟩ := h; subst he; simp [Exc.isInstallerError])

/-- The stop-and-recreate `update` variant only ever raises
`InstallerError`: the whole body, including its `get_status` call, sits
inside the `try` whose `APIError` handler re-wraps engine errors, and
the only other raises are already `InstallerError`. -/
theorem updateRun_raises_wrapped (w : World) (i : Option String) :
    Res.raisesOnlyInstaller (Installer.updateRun i w) := by
  intro e w2 h
  rcases hcf : w.configFile with _ | cd
  · cases hE : w.engineOk <;>
      simp [Installer.updateRun, Installer.updateRunBody, Installer.get_status, Installer.defaultStatus,
        Installer.imagesPull, Installer.stopRemoveExisting, Installer.containersGet,
        Installer.containerStop, Installer.containerRemove, Installer.containersRun,
        Res.andThen, catchWith, catchPass, hcf, hE,
        Exc.isNotFound, Exc.isAPIError] at h <;>
      (obtain ⟨he, -⟩ := h; subst he; simp [Exc.isInstallerError])
  · cases cd with
    | corrupt =>
      cases hE : w.engineOk <;>
        simp [Installer.updateRun, Installer.updateRunBody, Installer.get_status, Installer.defaultStatus,
          Installer.imagesPull, Installer.stopRemoveExisting, Installer.containersGet,
          Installer.containerStop, Installer.containerRemove, Installer.containersRun,
          Res.andThen, catchWith, catchPass, hcf, hE,
          Exc.isNotFound, Exc.isAPIError] at h <;>
        (obtain ⟨he, -⟩ := h; subst he; simp [Exc.isInstallerError])
    | valid c =>
      cases hE : w.engineOk <;> cases hC : w.container <;>
        simp [Installer.updateRun, Installer.updateRunBody, Installer.get_status, Installer.defaultStatus,
          Installer.imagesPull, Installer.stopRemoveExisting, Installer.containersGet,
          Installer.containerStop, Installer.containerRemove, Installer.containersRun,
          Res.andThen, catchWith, catchPass, hcf, hE, hC,
          Exc.isNotFound, Exc.isAPIError] at h <;>
        (obtain ⟨he, -⟩ := h; subst he; simp [Exc.isInstallerError])

/-- C3 counterexample: `enable_autostart` on macOS with the launch script
present but `launchctl` failing raises an unwrapped
`CalledProcessError`, not an `InstallerError`. -/
theorem enable_autostart_unwrapped_escape :
    Res.isOk (Installer.enable_autostart wLaunchctlFail) = false ∧
    Res.errInstaller (Installer.enable_autostart wLaunchctlFail) = false :=
  ⟨rfl, rfl⟩

/-- C3 (amended): `install`, `uninstall`, both `stop` variants, `restart`
and the stop-and-recreate `update` variant wrap every lower-level failure
as `InstallerError`; but the restart-in-place `update` variant and
`start` let engine errors raised inside their `get_status` call escape
unwrapped, `logs` lets an `APIError` from log retrieval escape unwrapped,
and `enable_autostart` lets a `launchctl` subprocess failure escape
unwrapped. -/
theorem error_wrapping_policy :
    (∀ w m p f i, Res.raisesOnlyInstaller (Installer.install m p f i w)) ∧
    (∀ w, Res.raisesOnlyInstaller (Installer.uninstall w)) ∧
    (∀ w, Res.raisesOnlyInstaller (Installer.stop w)) ∧
    (∀ w, Res.raisesOnlyInstaller (Installer.stopHead w)) ∧
    (∀ w, Res.raisesOnlyInstaller (Installer.restart w)) ∧
    (∀ w i, Res.raisesOnlyInstaller (Installer.updateRun i w)) ∧
    (Res.isOk (Installer.update (some "x") wEngineDown) = false ∧
      Res.errInstaller (Installer.update (some "x") wEngineDown) = false) ∧
    (Res.isOk (Installer.start wEngineDown) = false ∧
      Res.errInstaller (Installer.start wEngineDown) = false) ∧
    (Res.isOk (Installer.logs 100 wLogsFail) = false ∧
      Res.errInstaller (Installer.logs 100 wLogsFail) = false) ∧
    (Res.isOk (Installer.enable_autostart wLaunchctlFail) = false ∧
      Res.errInstaller (Installer.enable_autostart wLaunchctlFail) = false) := by
  refine ⟨fun w m p f i => catchAll_installer _ _, fun w => catchAll_installer _ _,
    stop_raises_wrapped, fun w => catchAll_installer _ _, restart_raises_wrapped,
    fun w i => updateRun_raises_wrapped w i, ⟨rfl, rfl⟩, ⟨rfl, rfl⟩, ⟨rfl, rfl⟩, ⟨rfl, rfl⟩⟩

/-- Witness for C3's amended theorem: concrete wrapped failures obtained
by applying the theorem: `stop` with the engine down raises an
`InstallerError`, as does `install` on an unsupported OS. -/
theorem error_wrapping_policy_witness :
    Res.errInstaller (Installer.stop wEngineDown) = true ∧
    Res.errInstaller (Installer.install "m" 3000 true none { wBase with system := "W" }) = true := by
  constructor
  · have h : (Installer.stop wEngineDown).2 =
        .error (.installer "Failed to stop Open WebUI container: cannot connect to the container engine",
          wEngineDown) := rfl
    have h2 := error_wrapping_policy.2.2.1 wEngineDown _ _ h
    simp [Res.errInstaller, h, h2]
  · have h : (Installer.install "m" 3000 true none { wBase with system := "W" }).2 =
        .error (.installer "Installation failed: This installer only supports macOS and Linux",
          { wBase with system := "W" }) := rfl
    have h2 := error_wrapping_policy.1 { wBase with system := "W" } "m" 3000 true none _ _ h
    simp [Res.errInstaller, h, h2]

/-- C7 counterexample: `update(image="custom:tag")` on an installed
system pulls the image and rewrites the config, but it neither stops nor
removes nor recreates the container: it restarts the existing container
in place. -/
theorem update_restarts_in_place :
    (Installer.update (some "custom:tag") wInstalled).1 =
      [.pullImage "custom:tag",
       .writeConfig ⟨some "0.1.0", some "m", some 3000, some "custom:tag"⟩,
       .containerRestart] ∧
    Res.isOk (Installer.update (some "custom:tag") wInstalled) = true ∧
    Event.containerStop ∉ (Installer.update (some "custom:tag") wInstalled).1 ∧
    Event.containerRemove ∉ (Installer.update (some "custom:tag") wInstalled).1 :=
  ⟨rfl, rfl, by decide, by decide⟩

/-- C7 (amended): on an installed state with the container present,
`update(image)` (installer.py lines 911-933) pulls the new image and
rewrites the config's image field, leaving its port unchanged, but then
merely restarts the existing container in place; the variant at lines
836-873 additionally stops and removes the old container and starts a
new one mapped to the port stored in the config. -/
theorem update_behavior (w : World) (c : ConfigJson) (ct : Container) (img : String)
    (hcf : w.configFile = some (.valid c)) (hct : w.container = some ct)
    (hE : w.engineOk = true) (himg : img ≠ "") :
    Installer.update (some img) w =
      ([.pullImage img, .writeConfig { c with image := some img }, .containerRestart],
       .ok ((), { w with configDirExists := true,
                         configFile := some (.valid { c with image := some img }),
                         container := some { ct with status := "running" } })) ∧
    Installer.updateRun (some img) w =
      ([.pullImage img, .writeConfig { c with image := some img },
        .containerStop, .containerRemove,
        .containerRun img (c.port.getD 3000) Installer.baseEnv],
       .ok ((), { w with configDirExists := true,
                         configFile := some (.valid { c with image := some img }),
                         container := some ⟨"running", img⟩ })) := by
  constructor <;>
    simp [Installer.update, Installer.updateRun, Installer.updateRunBody,
      Installer.updateTryBody, Installer.get_status, Installer.configSetImageStep,
      Installer.imagesPull, Installer.restart, Installer.containersGet,
      Installer.containerRestart, Installer.containerStop, Installer.containerRemove,
      Installer.containersRun, Installer.stopRemoveExisting, Installer.effectiveImage,
      Res.andThen, catchWith, catchPass, pyTruthy,
      hcf, hct, hE, himg, Exc.isNotFound, Exc.isAPIError]

/-- Witness for C7's amended theorem at the concrete installed world. -/
theorem update_behavior_witness :
    wInstalled.configFile = some (.valid cfg0) ∧
    wInstalled.container = some ⟨"running", "old"⟩ ∧
    wInstalled.engineOk = true ∧ ("custom:tag" : String) ≠ "" ∧
    (Installer.update (some "custom:tag") wInstalled =
      ([.pullImage "custom:tag", .writeConfig { cfg0 with image := some "custom:tag" },
        .containerRestart],
       .ok ((), { wInstalled with
                    configDirExists := true,
                    configFile := some (.valid { cfg0 with image := some "custom:tag" }),
                    container := some { status := "running", image := "old" } })) ∧
     Installer.updateRun (some "custom:tag") wInstalled =
      ([.pullImage "custom:tag", .writeConfig { cfg0 with image := some "custom:tag" },
        .containerStop, .containerRemove,
        .containerRun "custom:tag" (cfg0.port.getD 3000) Installer.baseEnv],
       .ok ((), { wInstalled with
                    configDirExists := true,
                    configFile := some (.valid { cfg0 with image := some "custom:tag" }),
                    container := some ⟨"running", "custom:tag"⟩ }))) :=
  ⟨rfl, rfl, rfl, by decide,
   update_behavior wInstalled cfg0 ⟨"running", "old"⟩ "custom:tag" rfl rfl rfl (by decide)⟩

/-- A normal return of `images.pull` leaves the world unchanged and
implies the engine was reachable. -/
theorem imagesPull_ok {img : String} {w wo : World} {u : Unit}
    (h : (Installer.imagesPull img w).2 = .ok (u, wo)) :
    wo = w ∧ w.engineOk = true := by
  by_cases hE : w.engineOk = true <;> simp [Installer.imagesPull, hE] at h
  exact ⟨h.symm, hE⟩

/-- A normal return of the wrapped image pull of `install`. -/
theorem pullWebuiImage_ok {img : String} {w wo : World} {u : Unit}
    (h : (Installer.pullWebuiImage img w).2 = .ok (u, wo)) :
    wo = w ∧ w.engineOk = true :=
  imagesPull_ok (catchWith_ok h)

/-- A normal return of the `ollama pull` subprocess leaves the world
unchanged. -/
theorem ollamaPullSub_ok {m : String} {w wo : World} {u : Unit}
    (h : (Installer.ollamaPullSub m w).2 = .ok (u, wo)) : wo = w := by
  cases hp : w.ollamaPull <;> simp [Installer.ollamaPullSub, hp] at h
  exact h.symm

/-- A normal return of the wrapped model pull of `install`. -/
theorem pullOllamaModel_ok {m : String} {w wo : World} {u : Unit}
    (h : (Installer.pullOllamaModel m w).2 = .ok (u, wo)) : wo = w :=
  ollamaPullSub_ok (catchWith_ok (catchWith_ok h))

/-- The launch-script write only sets the launch-script flag. -/
theorem writeLaunchScriptStep_ok {p : Nat} {img : String} {w wo : World} {u : Unit}
    (h : (Installer.writeLaunchScriptStep p img w).2 = .ok (u, wo)) :
    wo = { w with launchScript := true } := by
  simp [Installer.writeLaunchScriptStep] at h
  exact h.symm

/-- `_write_config` stores exactly the model, port and image it was
given, under version `"0.1.0"`. -/
theorem write_config_ok {m : String} {p : Nat} {img : String} {w wo : World} {u : Unit}
    (h : (Installer.write_config m p img w).2 = .ok (u, wo)) :
    wo = { w with configFile := some (.valid ⟨some "0.1.0", some m, some p, some img⟩) } := by
  simp [Installer.write_config] at h
  exact h.symm

/-- Stop-and-remove-existing preserves the config file and the engine
state. -/
theorem stopRemoveExisting_ok {w wo : World} {u : Unit}
    (h : (Installer.stopRemoveExisting w).2 = .ok (u, wo)) :
    wo.configFile = w.configFile ∧ wo.engineOk = w.engineOk := by
  cases hE : w.engineOk <;> cases hC : w.container <;>
    simp [Installer.stopRemoveExisting, Installer.containersGet, Installer.containerStop,
      Installer.containerRemove, Res.andThen, catchPass, hE, hC, Exc.isNotFound] at h <;>
    simp [← h, hE]

/-- A normal return of `containers.run` means the engine was reachable
and leaves a freshly started container under the requested image. -/
theorem containersRun_ok {img : String} {p : Nat} {ev : List (String × String)}
    {w wo : World} {u : Unit}
    (h : (Installer.containersRun img p ev w).2 = .ok (u, wo)) :
    wo = { w with container := some ⟨"running", img⟩ } ∧ w.engineOk = true := by
  unfold Installer.containersRun at h
  by_cases hE : w.engineOk = true
  · rw [if_pos hE] at h
    simp at h
    exact ⟨h.symm, hE⟩
  · rw [if_neg hE] at h
    simp at h

/-- A normal return of the container-start block of `install` keeps the
config file, implies the engine is reachable, and leaves the named
container running under the installed image. -/
theorem startContainerStep_ok {p : Nat} {img : String} {w wo : World} {u : Unit}
    (h : (Installer.startContainerStep p img w).2 = .ok (u, wo)) :
    wo.configFile = w.configFile ∧ wo.engineOk = true ∧
    wo.container = some ⟨"running", img⟩ := by
  have h2 := catchWith_ok h
  obtain ⟨a, w8, h3, h4⟩ := Res.andThen_ok h2
  obtain ⟨hcf, hE⟩ := stopRemoveExisting_ok h3
  obtain ⟨hwo, hE8⟩ := containersRun_ok h4
  subst hwo
  refine ⟨hcf, ?_, rfl⟩
  rw [← hE8]

/-- C6: whenever `install(model=m, port=p)` returns normally, a
subsequent `get_status` returns normally with `installed=true`,
`port=p` and `model=m` read back from the config file `install`
wrote (and the freshly started container reports `running=true`). -/
theorem install_then_get_status (w w1 : World) (m : String) (p : Nat) (f : Bool)
    (i : Option String) (h : (Installer.install m p f i w).2 = .ok ((), w1)) :
    Installer.get_status w1 =
      ([], .ok ({ installed := true, version := some "0.1.0", port := some p,
                  model := some m, image := none, running := true },
                { w1 with configDirExists := true })) := by
  have hb : (Installer.installBody m p f i w).2 = .ok ((), w1) := catchWith_ok h
  obtain ⟨a1, wA, hs1, hb1⟩ := Res.andThen_ok hb
  obtain ⟨a2, wB, hs2, hb2⟩ := Res.andThen_ok hb1
  obtain ⟨a3, wC, hs3, hb3⟩ := Res.andThen_ok hb2
  obtain ⟨a4, wD, hs4, hb4⟩ := Res.andThen_ok hb3
  obtain ⟨a5, wE, hs5, hb5⟩ := Res.andThen_ok hb4
  obtain ⟨a6, wF, hs6, hb6⟩ := Res.andThen_ok hb5
  have hwF := write_config_ok hs6
  obtain ⟨hcf1, hE1, hct1⟩ := startContainerStep_ok hb6
  have hcfg : w1.configFile =
      some (.valid ⟨some "0.1.0", some m, some p, some (Installer.effectiveImage i)⟩) := by
    rw [hcf1, hwF]
  simp [Installer.get_status, hcfg, hE1, hct1]

/-- The world a successful `install(model="m", port=3000)` from `wBase`
produces. -/
def wAfterInstall : World :=
  { wBase with
    configDirExists := true, launchScript := true,
    configFile := some (.valid ⟨some "0.1.0", some "m", some 3000, some Installer.webui_image⟩),
    container := some ⟨"running", Installer.webui_image⟩ }

/-- Witness for C6: a concrete successful installation followed by a
status read, via the theorem. -/
theorem install_then_get_status_witness :
    (Installer.install "m" 3000 false none wBase).2 = .ok ((), wAfterInstall) ∧
    Installer.get_status wAfterInstall =
      ([], .ok ({ installed := true, version := some "0.1.0", port := some 3000,
                  model := some "m", image := none, running := true },
                { wAfterInstall with configDirExists := true })) :=
  ⟨rfl, install_then_get_status wBase wAfterInstall "m" 3000 false none rfl⟩

/-- C8: the secret loader prefers a set, non-empty environment variable;
otherwise it returns the stripped contents of the secrets-mount file when
that file exists; otherwise `None`. -/
theorem load_secret_precedence (env files : String → Option String) (name : String) :
    (∀ v, env name = some v → v ≠ "" → Installer.load_secret env files name = some v) ∧
    (pyTruthy (env name) = false → ∀ content, files name = some content →
      Installer.load_secret env files name = some (pyStrip content)) ∧
    (pyTruthy (env name) = false → files name = none →
      Installer.load_secret env files name = none) := by
  cases henv : env name with
  | none =>
    cases hf : files name <;>
      simp [Installer.load_secret, Installer.load_secret.load_secret_file, pyTruthy, henv, hf]
  | some v =>
    by_cases hv : v = "" <;>
      cases hf : files name <;>
        simp [Installer.load_secret, Installer.load_secret.load_secret_file, pyTruthy, henv, hf, hv]

/-- Witness for C8 at concrete environments: an unset variable with a
mounted file, exercised through the theorem. -/
theorem load_secret_precedence_witness :
    ((∀ v, (fun (_ : String) => (none : Option String)) "K" = some v → v ≠ "" →
        Installer.load_secret (fun _ => none) (fun _ => some " f ") "K" = some v) ∧
     (pyTruthy ((fun (_ : String) => (none : Option String)) "K") = false →
        ∀ content, (fun (_ : String) => some " f ") "K" = some content →
          Installer.load_secret (fun _ => none) (fun _ => some " f ") "K" = some (pyStrip content)) ∧
     (pyTruthy ((fun (_ : String) => (none : Option String)) "K") = false →
        (fun (_ : String) => some " f ") "K" = none →
          Installer.load_secret (fun _ => none) (fun _ => some " f ") "K" = none)) ∧
    Installer.load_secret (fun _ => none) (fun _ => some " f ") "K" = some "f" :=
  ⟨load_secret_precedence (fun _ => none) (fun _ => some " f ") "K",
   (load_secret_precedence (fun _ => none) (fun _ => some " f ") "K").2.1 rfl " f " rfl⟩

/-- C9: with a non-empty checksum, a normal return of `download_if_needed`
means the file at `dest` hashes to the checksum (whether it pre-existed
or was just downloaded); and when a freshly downloaded file mismatches,
the file is deleted before `DownloadError` is raised. -/
theorem download_if_needed_checksum (hash : String → String) (resp : Except String String)
    (dest : Option String) (c : String) (hc : c ≠ "") :
    ((Downloader.download_if_needed hash resp dest (some c)).2 = .ok () →
      ∃ content, (Downloader.download_if_needed hash resp dest (some c)).1 = some content ∧
        hash content = c) ∧
    (∀ fresh, resp = .ok fresh → hash fresh ≠ c →
      (∀ d, dest = some d → hash d ≠ c) →
      Downloader.download_if_needed hash resp dest (some c) =
        (none, .error "Checksum mismatch after download")) := by
  cases dest with
  | none =>
    cases resp with
    | error msg =>
      simp [Downloader.download_if_needed, Downloader.download_if_needed.fetchAndCheck]
    | ok content =>
      by_cases hm : hash content = c <;>
        simp [Downloader.download_if_needed, Downloader.download_if_needed.fetchAndCheck, hc, hm]
  | some existing =>
    by_cases he : hash existing = c
    · simp [Downloader.download_if_needed, hc, he]
    · cases resp with
      | error msg =>
        simp [Downloader.download_if_needed, Downloader.download_if_needed.fetchAndCheck, hc, he]
      | ok content =>
        by_cases hm : hash content = c <;>
          simp [Downloader.download_if_needed, Downloader.download_if_needed.fetchAndCheck, hc, he, hm]

/-- Witness for C9: a fresh download whose digest mismatches is removed,
via the theorem at a concrete hash, response and destination. -/
theorem download_if_needed_checksum_witness :
    ("b" : String) ≠ "" ∧
    Downloader.download_if_needed (fun s => s) (.ok "a") none (some "b") =
      (none, .error "Checksum mismatch after download") :=
  ⟨by decide,
   (download_if_needed_checksum (fun s => s) (.ok "a") none "b" (by decide)).2
     "a" rfl (by decide) (by intro d hd; cases hd)⟩

/-- C10: when the config file exists but cannot be read or parsed,
`get_status` returns normally with `installed=false`, `running=false`
and every other field `None`. -/
theorem get_status_corrupt_config (w : World) (h : w.configFile = some .corrupt) :
    Installer.get_status w =
      ([], .ok (Installer.defaultStatus, { w with configDirExists := true })) ∧
    Installer.defaultStatus.installed = false ∧
    Installer.defaultStatus.running = false ∧
    Installer.defaultStatus.version = none ∧
    Installer.defaultStatus.port = none ∧
    Installer.defaultStatus.model = none ∧
    Installer.defaultStatus.image = none := by
  refine ⟨?_, rfl, rfl, rfl, rfl, rfl, rfl⟩
  simp [Installer.get_status, h]

/-- Witness for C10 at a concrete corrupt-config world. -/
theorem get_status_corrupt_config_witness :
    wCorrupt.configFile = some .corrupt ∧
    (Installer.get_status wCorrupt =
      ([], .ok (Installer.defaultStatus, { wCorrupt with configDirExists := true })) ∧
     Installer.defaultStatus.installed = false ∧
     Installer.defaultStatus.running = false ∧
     Installer.defaultStatus.version = none ∧
     Installer.defaultStatus.port = none ∧
     Installer.defaultStatus.model = none ∧
     Installer.defaultStatus.image = none) :=
  ⟨rfl, get_status_corrupt_config wCorrupt rfl⟩
